import Mathlib

/-!
Verification of the Rubrik polling monitor (`rubrik.py`).

The Python source is shallowly embedded below.  The monitor state
(`MonitorJSON`), the per-cycle data record (`RubrikData`), the login helper
(`get_rubrik_token`) and the polling cycle (`generate_json`) follow the
source line by line; network responses are passed in explicitly as
`LoginOutcome` / `CycleEnv` values, one constructor per distinct behaviour
of a response (bad HTTP status, a body that raises during parsing, or a
parsed value).  An exception that escapes `generate_json` is modelled by
`Except.error` carrying the monitor state at the moment of propagation.

Python's `int(a / b)` on non-negative integers is float division followed
by truncation toward zero; it is modelled exactly (`pyTrunc`): the true
quotient is rounded to 53 significant bits, round-to-nearest ties-to-even,
and then floored.  This differs from integer division `a // b` for large
inputs, which matters for the unit-conversion claims.
-/

/-- Fuel-driven floor of the base-2 logarithm; `lg2Aux fuel n` equals
`Nat.log2 n` whenever `n ≤ fuel`.  Written with explicit fuel so that it is
structurally recursive and reduces inside the kernel. -/
def lg2Aux : ℕ → ℕ → ℕ
  | 0, _ => 0
  | fuel + 1, n => if 2 ≤ n then lg2Aux fuel (n / 2) + 1 else 0

/-- `lg2 n` is the floor of the base-2 logarithm of `n` (0 for `n = 0`). -/
def lg2 (n : ℕ) : ℕ := lg2Aux n n

/-- Fuel-driven ceiling of the base-2 logarithm. -/
def clg2Aux : ℕ → ℕ → ℕ
  | 0, _ => 0
  | fuel + 1, n => if 2 ≤ n then clg2Aux fuel ((n + 1) / 2) + 1 else 0

/-- `clg2 n` is the ceiling of the base-2 logarithm of `n` (0 for `n ≤ 1`). -/
def clg2 (n : ℕ) : ℕ := clg2Aux n n

/-- Round `n / d` to the nearest integer, ties to even (`d > 0` assumed). -/
def rne (n d : ℕ) : ℕ :=
  let q := n / d
  let r := n % d
  if 2 * r < d then q
  else if d < 2 * r then q + 1
  else if q % 2 = 0 then q else q + 1

/-- Model of Python's `int(a / b)` for non-negative integers `a`, `b`:
true division produces the IEEE-754 double nearest to the rational `a / b`
(53 significant bits, round-to-nearest ties-to-even), and `int` truncates
it toward zero.  The binade of `a / b` is located with `lg2` / `clg2`; the
significand is `rne` of the quotient scaled into `[2^52, 2^53)`.
Overflow to infinity (quotients of magnitude `≥ 2^1024`) and subnormals
are outside the range exercised here and are not modelled. -/
def pyTrunc (a b : ℕ) : ℕ :=
  if a = 0 ∨ b = 0 then 0
  else if b ≤ a then
    let L := lg2 (a / b)
    if L ≤ 52 then
      rne (a * 2 ^ (52 - L)) b / 2 ^ (52 - L)
    else
      rne a (b * 2 ^ (L - 52)) * 2 ^ (L - 52)
  else
    let t := clg2 ((b + a - 1) / a)
    rne (a * 2 ^ (52 + t)) b / 2 ^ (52 + t)

/-- `int(x / (1000 * 1000 * 1000))` - bytes to gigabytes, rubrik.py
lines 125, 126, 135, 144, 156, 157. -/
def bytesToGB (x : ℕ) : ℕ := pyTrunc x (1000 * 1000 * 1000)

/-- `int(x / (1024 * 1024))` - bytes per second to megabytes per second,
rubrik.py lines 189, 190, 202. -/
def bytesToMB (x : ℕ) : ℕ := pyTrunc x (1024 * 1024)

/-- `MAX_DATAPOINTS = 30`, rubrik.py line 20. -/
def MAX_DATAPOINTS : ℕ := 30

/-- The `RubrikData` class (rubrik.py lines 24-40): all data gathered
during processing.  JSON numbers are modelled as naturals (the spec's data
model declares every scalar non-negative). -/
structure RubrikData where
  iops : List ℕ
  throughput : List ℕ
  ingest : List ℕ
  streams : List ℕ
  success_count : ℕ
  failure_count : ℕ
  running_count : ℕ
  total : ℕ
  used : ℕ
  available : ℕ
  avg_growth_per_day : ℕ
  ingested_yesterday : ℕ
  ingested_today : ℕ
  node_status : String
  deriving Repr, DecidableEq

/-- `RubrikData.__init__`: empty series, zero counters, status `"ERR"`. -/
def RubrikData.init : RubrikData :=
  { iops := [], throughput := [], ingest := [], streams := []
    success_count := 0, failure_count := 0, running_count := 0
    total := 0, used := 0, available := 0, avg_growth_per_day := 0
    ingested_yesterday := 0, ingested_today := 0, node_status := "ERR" }

/-- The serialized output held in `MonitorJSON.json`: initially the empty
string, then either the `{"stats": ...}` dump of a `RubrikData` record
(rubrik.py line 218) or an `{"error": ...}` payload (lines 103, 228). -/
inductive Payload where
  | empty : Payload
  | errorMsg : String → Payload
  | stats : RubrikData → Payload
  deriving Repr, DecidableEq

/-- The `MonitorJSON` class (rubrik.py lines 47-53).  The `requests.Session`
object is opaque to the model: only presence matters. -/
structure MonitorJSON where
  json : Payload
  session : Option Unit
  data : RubrikData
  token : Option String
  deriving Repr, DecidableEq

/-- `MonitorJSON.__init__`: empty output, no session, fresh data, no token. -/
def initMonitor : MonitorJSON :=
  { json := .empty, session := none, data := RubrikData.init, token := none }

/-- Behaviour of the one login request issued by `get_rubrik_token`
(rubrik.py lines 69-88), one constructor per distinct code path. -/
inductive LoginOutcome where
  /-- `requests` raises Timeout / ConnectionError / HTTPError (lines 73-77). -/
  | transportError : LoginOutcome
  /-- the response body is a JSON object carrying `"token"` (line 85). -/
  | okToken : String → LoginOutcome
  /-- the body is a JSON object with `"message"` but no `"token"` (lines 86-88). -/
  | errMessage : String → LoginOutcome
  /-- the body is not valid JSON: `json.loads` at line 79 raises, outside any try. -/
  | malformedBody : LoginOutcome
  /-- a JSON object with neither `"token"` nor `"message"`: the KeyError
  handler itself raises KeyError at line 87. -/
  | noTokenNoMessage : LoginOutcome
  deriving Repr, DecidableEq

/-- Behaviour of one metric query: non-200 status (raises
`RubrikNotConnectedException`), an exception while parsing or indexing the
body, or a successfully parsed value. -/
inductive QueryOutcome (α : Type) where
  | badStatus : QueryOutcome α
  | parseError : QueryOutcome α
  | ok : α → QueryOutcome α
  deriving Repr, DecidableEq

/-- `true` exactly on the `ok` constructor. -/
def QueryOutcome.isOk {α : Type} : QueryOutcome α → Bool
  | .ok _ => true
  | _ => false

/-- The nine metric-query responses of one cycle, in source order
(rubrik.py lines 106-202):
summary report, system storage, snapshot storage, average growth,
two-day ingest series, node status list, stream count, io statistics,
live physical ingest. -/
structure CycleEnv where
  q1 : QueryOutcome (ℕ × ℕ × ℕ)
  q2 : QueryOutcome (ℕ × ℕ)
  q3 : QueryOutcome ℕ
  q4 : QueryOutcome ℕ
  q5 : QueryOutcome (ℕ × ℕ)
  q6 : QueryOutcome (List String)
  q7 : QueryOutcome ℕ
  q8 : QueryOutcome (ℕ × ℕ × ℕ × ℕ)
  q9 : QueryOutcome ℕ
  deriving Repr, DecidableEq

/-- All nine queries returned a parsed value. -/
def CycleEnv.allOk (e : CycleEnv) : Bool :=
  e.q1.isOk && e.q2.isOk && e.q3.isOk && e.q4.isOk && e.q5.isOk &&
  e.q6.isOk && e.q7.isOk && e.q8.isOk && e.q9.isOk

/-- Node-status aggregation loop, rubrik.py lines 165-168: start from
`"OK"`; every node whose status differs from `"OK"` overwrites the
accumulator. -/
def aggregateNodeStatus (statuses : List String) : String :=
  statuses.foldl (fun acc s => if s ≠ "OK" then s else acc) "OK"

/-- The datapoint-saving block, rubrik.py lines 204-215: append one sample
to each of the four series, then, if the `iops` series now exceeds
`MAX_DATAPOINTS`, delete the oldest element of all four. -/
def appendSamples (d : RubrikData) (io tput ing str : ℕ) : RubrikData :=
  let d1 := { d with iops := d.iops ++ [io], throughput := d.throughput ++ [tput]
                     ingest := d.ingest ++ [ing], streams := d.streams ++ [str] }
  if MAX_DATAPOINTS < d1.iops.length then
    { d1 with iops := d1.iops.tail, throughput := d1.throughput.tail
              ingest := d1.ingest.tail, streams := d1.streams.tail }
  else d1

/-- Generic per-series form of the same step, as in spec section 4.3:
append the value, and if the length now exceeds the cap remove the single
oldest element. -/
def append_and_trim (series : List ℕ) (value : ℕ) (cap : ℕ) : List ℕ :=
  let s := series ++ [value]
  if cap < s.length then s.tail else s

/-- The body of the `try` block of `generate_json` (rubrik.py
lines 106-222) acting on the `data` record.  Each query either aborts the
cycle (`Except.error` carrying the record as mutated so far - the
assignments already executed are kept, exactly as in the source, where
they were applied directly to `rubrik_monitor.data`) or contributes its
fields.  Queries 7-9 bind local variables only; their samples reach the
record in the final `appendSamples` step. -/
def runQueries (d : RubrikData) (env : CycleEnv) : Except RubrikData RubrikData :=
  match env.q1 with
  | .badStatus => .error d
  | .parseError => .error d
  | .ok (s, f, r) =>
    let d := { d with success_count := s, failure_count := f, running_count := r }
    match env.q2 with
    | .badStatus => .error d
    | .parseError => .error d
    | .ok (tot, avail) =>
      let d := { d with total := bytesToGB tot, available := bytesToGB avail }
      match env.q3 with
      | .badStatus => .error d
      | .parseError => .error d
      | .ok v =>
        let d := { d with used := bytesToGB v }
        match env.q4 with
        | .badStatus => .error d
        | .parseError => .error d
        | .ok b =>
          let d := { d with avg_growth_per_day := bytesToGB b }
          match env.q5 with
          | .badStatus => .error d
          | .parseError => .error d
          | .ok (y, t) =>
            let d := { d with ingested_yesterday := bytesToGB y, ingested_today := bytesToGB t }
            match env.q6 with
            | .badStatus => .error d
            | .parseError => .error d
            | .ok ns =>
              let d := { d with node_status := aggregateNodeStatus ns }
              match env.q7 with
              | .badStatus => .error d
              | .parseError => .error d
              | .ok streams =>
                match env.q8 with
                | .badStatus => .error d
                | .parseError => .error d
                | .ok (ir, iw, tr, tw) =>
                  match env.q9 with
                  | .badStatus => .error d
                  | .parseError => .error d
                  | .ok ing =>
                    .ok (appendSamples d (ir + iw) (bytesToMB tr + bytesToMB tw)
                          (bytesToMB ing) streams)

/-- `get_rubrik_token` (rubrik.py lines 56-88).  Line 67 stores a fresh
`requests.Session` on the monitor before the login request is attempted.
The returned `Except` is `.error` when an exception escapes the function
(the `json.loads` at line 79 and the `result["message"]` lookup at line 87
run outside any matching handler); `.ok` carries the returned token or
`None`. -/
def get_rubrik_token (st : MonitorJSON) (login : LoginOutcome) :
    MonitorJSON × Except Unit (Option String) :=
  let st1 := { st with session := some () }
  match login with
  | .transportError => (st1, .ok none)
  | .okToken t => (st1, .ok (some t))
  | .errMessage _ => (st1, .ok none)
  | .malformedBody => (st1, .error ())
  | .noTokenNoMessage => (st1, .error ())

/-- The `try ... except` of `generate_json` (rubrik.py lines 106-230),
entered with a token in hand.  If the session is absent, the first
`session.get` raises AttributeError, which the `except Exception` handler
at line 226 treats like any other failure: error payload, token and
session reset, data untouched.  A failing query likewise reaches line 226
with the partially updated data record kept.  On success the fully
updated record is stored and serialized (lines 218-222). -/
def runTry (st : MonitorJSON) (env : CycleEnv) : Except MonitorJSON MonitorJSON :=
  match st.session with
  | none =>
    .ok { st with json := .errorMsg "Error getting data from Rubrik"
                  token := none, session := none }
  | some _ =>
    match runQueries st.data env with
    | .ok d => .ok { st with data := d, json := .stats d }
    | .error d =>
      .ok { st with data := d, json := .errorMsg "Error getting data from Rubrik"
                    token := none, session := none }

/-- `generate_json` (rubrik.py lines 91-230), one polling cycle.  With no
cached token it first calls `get_rubrik_token` (line 101, outside the
`try`): an exception raised there propagates out of `generate_json`
(modelled as `.error` carrying the state left behind); a `None` result
publishes the token-error payload and returns (lines 102-104). -/
def generate_json (st : MonitorJSON) (login : LoginOutcome) (env : CycleEnv) :
    Except MonitorJSON MonitorJSON :=
  match st.token with
  | none =>
    match get_rubrik_token st login with
    | (st1, .error _) => .error st1
    | (st1, .ok none) =>
      .ok { st1 with token := none
                     json := .errorMsg "Error getting login token from Rubrik" }
    | (st1, .ok (some t)) => runTry { st1 with token := some t } env
  | some _ => runTry st env

/-- The monitor state resulting from a cycle, whether `generate_json`
returned normally or an exception escaped it. -/
def resultState : Except MonitorJSON MonitorJSON → MonitorJSON
  | .ok st => st
  | .error st => st

/-- States reachable from the freshly constructed monitor by completed
polling cycles (a cycle whose exception kills the process has no
successor state). -/
inductive Reachable : MonitorJSON → Prop
  | init : Reachable initMonitor
  | step (st : MonitorJSON) (login : LoginOutcome) (env : CycleEnv)
      (st' : MonitorJSON) : Reachable st →
      generate_json st login env = .ok st' → Reachable st'

/-- A cycle environment in which all nine queries succeed, with concrete
parsed values. -/
def envAllOk : CycleEnv :=
  { q1 := .ok (1, 2, 3), q2 := .ok (5000000000, 2000000000), q3 := .ok 1500000000
    q4 := .ok 100000000, q5 := .ok (3000000000, 1000000000), q6 := .ok ["OK", "OK"]
    q7 := .ok 4, q8 := .ok (10, 20, 2097152, 1048576), q9 := .ok 2097152 }

/-- A cycle environment whose first query succeeds (7 successful, 2 failed,
1 running job) and whose second query returns a non-200 status. -/
def envFailQ2 : CycleEnv :=
  { q1 := .ok (7, 2, 1), q2 := .badStatus, q3 := .badStatus, q4 := .badStatus
    q5 := .badStatus, q6 := .badStatus, q7 := .badStatus, q8 := .badStatus
    q9 := .badStatus }

/-- A monitor state holding a cached token and an open session, as left by
a previous successful login. -/
def stTok : MonitorJSON :=
  { initMonitor with token := some "tok", session := some () }

/-- `envAllOk` with the io-statistics query reporting a read byte rate of
2^73 - 1 bytes per second (and zero write rate). -/
def envBigRate : CycleEnv :=
  { envAllOk with q8 := .ok (3, 4, 2 ^ 73 - 1, 0) }

/-! ## Arithmetic helper lemmas for the float-division model -/

theorem rne_le (n d : ℕ) : rne n d ≤ n / d + 1 := by
  simp only [rne]
  generalize n / d = q
  generalize n % d = r
  split
  · omega
  · split
    · omega
    · split <;> omega

theorem rne_of_mod_eq_zero (n d : ℕ) (hd : 0 < d) (h : n % d = 0) :
    rne n d = n / d := by
  simp [rne, h, hd]

theorem lg2Aux_le (fuel : ℕ) : ∀ n k : ℕ, n < 2 ^ (k + 1) → lg2Aux fuel n ≤ k := by
  induction fuel with
  | zero => intro n k _; simp [lg2Aux]
  | succ f ih =>
    intro n k h
    simp only [lg2Aux]
    split
    · rename_i h2
      rcases k with _ | k'
      · exfalso
        have : (2 : ℕ) ^ (0 + 1) = 2 := by norm_num
        omega
      · have hdiv : n / 2 < 2 ^ (k' + 1) := by
          apply Nat.div_lt_of_lt_mul
          calc n < 2 ^ (k' + 1 + 1) := h
            _ = 2 * 2 ^ (k' + 1) := by rw [pow_succ]; ring
        have := ih (n / 2) k' hdiv
        omega
    · exact Nat.zero_le _

theorem lg2_le (n k : ℕ) (h : n < 2 ^ (k + 1)) : lg2 n ≤ k := lg2Aux_le n n k h

theorem clg2_one_le (m : ℕ) (h : 2 ≤ m) : 1 ≤ clg2 m := by
  obtain ⟨f, rfl⟩ : ∃ f, m = f + 1 := ⟨m - 1, by omega⟩
  simp only [clg2, clg2Aux]
  rw [if_pos h]
  omega

theorem pyTrunc_pow2 (a : ℕ) (h : a < 2 ^ 53) :
    pyTrunc a (1024 * 1024) = a / (1024 * 1024) := by
  by_cases ha : a = 0
  · subst ha; simp [pyTrunc]
  rcases le_or_lt (1024 * 1024) a with hba | hab
  · have hq : a / (1024 * 1024) < 2 ^ 33 := by
      apply Nat.div_lt_of_lt_mul
      calc a < 2 ^ 53 := h
        _ = 1024 * 1024 * 2 ^ 33 := by norm_num
    have hL : lg2 (a / (1024 * 1024)) ≤ 32 := lg2_le _ 32 (by exact hq)
    simp only [pyTrunc]
    rw [if_neg (by push_neg; exact ⟨ha, by norm_num⟩), if_pos hba,
        if_pos (by omega : lg2 (a / (1024 * 1024)) ≤ 52)]
    set L := lg2 (a / (1024 * 1024)) with hLdef
    have hpow : (2 : ℕ) ^ (52 - L) = 2 ^ (52 - L - 20) * (1024 * 1024) := by
      rw [show (1024 * 1024 : ℕ) = 2 ^ 20 from by norm_num, ← pow_add]
      congr 1
      omega
    have hmod : (a * 2 ^ (52 - L)) % (1024 * 1024) = 0 := by
      rw [hpow, ← Nat.mul_assoc]
      exact Nat.mul_mod_left _ _
    rw [rne_of_mod_eq_zero _ _ (by norm_num) hmod, hpow, ← Nat.mul_assoc,
        Nat.mul_div_cancel _ (by norm_num : 0 < 1024 * 1024), Nat.mul_comm a]
    exact Nat.mul_div_mul_left _ _ (by positivity)
  · simp only [pyTrunc]
    rw [if_neg (by push_neg; exact ⟨ha, by norm_num⟩),
        if_neg (by omega : ¬(1024 * 1024 ≤ a))]
    have ha1 : 1 ≤ a := by omega
    have ht : 1 ≤ clg2 ((1024 * 1024 + a - 1) / a) := by
      apply clg2_one_le
      rw [Nat.le_div_iff_mul_le ha1]
      omega
    set t := clg2 ((1024 * 1024 + a - 1) / a) with htdef
    have hpow : (2 : ℕ) ^ (52 + t) = 2 ^ (52 + t - 20) * (1024 * 1024) := by
      rw [show (1024 * 1024 : ℕ) = 2 ^ 20 from by norm_num, ← pow_add]
      congr 1
      omega
    have hdivmul : a * 2 ^ (52 + t) / (1024 * 1024) = a * 2 ^ (52 + t - 20) := by
      rw [hpow, ← Nat.mul_assoc, Nat.mul_div_cancel _ (by norm_num : 0 < 1024 * 1024)]
    have hm : rne (a * 2 ^ (52 + t)) (1024 * 1024) < 2 ^ (52 + t) := by
      have h1 := rne_le (a * 2 ^ (52 + t)) (1024 * 1024)
      rw [hdivmul] at h1
      have h2 : a * 2 ^ (52 + t - 20) ≤ 1048575 * 2 ^ (52 + t - 20) :=
        Nat.mul_le_mul_right _ (by omega)
      have h4 : 2 ≤ (2 : ℕ) ^ (52 + t - 20) :=
        (pow_one 2).symm.trans_le (Nat.pow_le_pow_right (by norm_num) (by omega))
      generalize hR : rne (a * 2 ^ (52 + t)) (1024 * 1024) = R at h1 ⊢
      generalize hY : a * 2 ^ (52 + t - 20) = Y at h1 h2
      generalize hC : (2 : ℕ) ^ (52 + t - 20) = C at h2 h4 hpow
      generalize hA : (2 : ℕ) ^ (52 + t) = A at hpow ⊢
      omega
    rw [Nat.div_eq_of_lt hm, Nat.div_eq_of_lt hab]

/-! ## Claim C8 - unit conversions -/

/-- C8 counterexample: the conversion to gigabytes is not truncating
integer division by 10^9 on every non-negative integer input.  At
10^18 - 1 bytes the code's float quotient rounds up to exactly 10^9
before `int` truncates, one more than the integer division. -/
theorem c8_counterexample :
    bytesToGB 999999999999999999 = 1000000000 ∧
    999999999999999999 / (1000 * 1000 * 1000) = 999999999 := by
  constructor
  · rfl
  · rfl

/-- C8 amended: byte counts are converted with divisor 10^9 and byte
rates with divisor 2^20, truncating the Python float quotient toward zero
(not rounding); for byte rates below 2^53 this coincides with truncating
integer division, and it does so on the spec's concrete examples. -/
theorem c8_amended :
    (∀ x : ℕ, x < 2 ^ 53 → bytesToMB x = x / (1024 * 1024)) ∧
    bytesToGB 5000000000 = 5 ∧
    bytesToGB 5999999999 = 5 ∧
    bytesToMB 2097152 = 2 :=
  ⟨fun x hx => pyTrunc_pow2 x hx, rfl, rfl, rfl⟩

/-- Witness for C8: the general clause of `c8_amended` applied at a
concrete rate. -/
theorem c8_amended_witness :
    44040197 < 2 ^ 53 ∧ bytesToMB 44040197 = 44040197 / (1024 * 1024) :=
  ⟨by norm_num, c8_amended.1 44040197 (by norm_num)⟩

/-! ## Claim C5 - node-status aggregation examples -/

/-- C5: node-status aggregation on the spec's concrete inputs: all-OK
yields OK, and in both mixed lists the degraded node reported last wins. -/
theorem c5_examples :
    aggregateNodeStatus ["OK", "OK", "OK"] = "OK" ∧
    aggregateNodeStatus ["OK", "DEGRADED", "OK"] = "DEGRADED" ∧
    aggregateNodeStatus ["FAILED", "DEGRADED"] = "DEGRADED" :=
  ⟨rfl, rfl, rfl⟩

/-! ## Claim C6 - failure propagation -/

/-- C6: with no cached token and a login response whose body is not valid
JSON (or a JSON object with neither token nor message), the exception
raised at rubrik.py line 79 (resp. 87) escapes `generate_json`: the cycle
does not return normally, contradicting the propagation policy.  The
fresh session object created at line 67 is left behind. -/
theorem c6_crash_eval :
    generate_json initMonitor .malformedBody envAllOk =
      .error { initMonitor with session := some () } ∧
    generate_json initMonitor .noTokenNoMessage envAllOk =
      .error { initMonitor with session := some () } :=
  ⟨rfl, rfl⟩

/-! ## Claim C3 - the sliding window -/

/-- Folding `append_and_trim` over any value sequence from a start series
no longer than the cap keeps exactly the trailing cap-window, in order. -/
theorem aat_foldl (C : ℕ) (hC : 1 ≤ C) :
    ∀ (vs s : List ℕ), s.length ≤ C →
      vs.foldl (fun acc v => append_and_trim acc v C) s =
        (s ++ vs).drop (s.length + vs.length - C) := by
  intro vs
  induction vs with
  | nil =>
    intro s hs
    have h0 : s.length - C = 0 := by omega
    simp [h0]
  | cons v vs ih =>
    intro s hs
    rw [List.foldl_cons]
    by_cases hlen : C < (s ++ [v]).length
    · have hsl : s.length = C := by
        simp only [List.length_append, List.length_singleton] at hlen
        omega
      rcases s with _ | ⟨a, s'⟩
      · exfalso; simp at hsl; omega
      · have hstep : append_and_trim (a :: s') v C = s' ++ [v] := by
          simp only [append_and_trim]
          rw [if_pos (by simpa using hlen)]
          rfl
        rw [hstep, ih (s' ++ [v]) (by simp at hsl ⊢; omega)]
        have hidx1 : (s' ++ [v]).length + vs.length - C = vs.length := by
          simp at hsl ⊢; omega
        have hidx2 : (a :: s').length + (v :: vs).length - C = vs.length + 1 := by
          simp at hsl ⊢; omega
        rw [hidx1, hidx2]
        simp only [List.cons_append, List.drop_succ_cons, List.append_assoc,
          List.singleton_append, List.nil_append]
    · have hstep : append_and_trim s v C = s ++ [v] := by
        simp only [append_and_trim]
        rw [if_neg hlen]
      rw [hstep, ih (s ++ [v]) (by simp at hlen ⊢; omega)]
      have hidx : (s ++ [v]).length + vs.length = s.length + (v :: vs).length := by
        simp
        omega
      rw [hidx]
      simp [List.append_assoc]

/-- C3: for every cap at least 1, appending N values through
`append_and_trim` starting from the empty series yields exactly the last
`min N C` values, in append order, hence length `min N C`. -/
theorem c3_append_and_trim (C : ℕ) (hC : 1 ≤ C) (vs : List ℕ) :
    vs.foldl (fun acc v => append_and_trim acc v C) [] =
      vs.drop (vs.length - C) ∧
    (vs.foldl (fun acc v => append_and_trim acc v C) []).length =
      min vs.length C := by
  have h := aat_foldl C hC vs [] (by simp)
  simp only [List.nil_append, List.length_nil, Nat.zero_add] at h
  refine ⟨h, ?_⟩
  rw [h, List.length_drop]
  omega

/-- Witness for C3 at cap 2 with three appended values. -/
theorem c3_witness :
    (1 ≤ 2) ∧
    ([1, 2, 3].foldl (fun acc v => append_and_trim acc v 2) [] =
      [1, 2, 3].drop ([1, 2, 3].length - 2) ∧
    ([1, 2, 3].foldl (fun acc v => append_and_trim acc v 2) []).length =
      min [1, 2, 3].length 2) :=
  ⟨by norm_num, c3_append_and_trim 2 (by norm_num) [1, 2, 3]⟩

/-! ## Claim C4 - node-status aggregation -/

theorem getLastD_of_cons {α : Type} (a x : α) (L : List α) :
    ((a :: L).getLast?).getD x = (L.getLast?).getD a := by
  cases L with
  | nil => simp
  | cons b L =>
    have hsome : ((b :: L).getLast?).isSome := by
      rw [List.getLast?_isSome]
      simp
    obtain ⟨y, hy⟩ := Option.isSome_iff_exists.mp hsome
    rw [List.getLast?_cons_cons, hy]
    simp

/-- The aggregation fold, for any accumulator, returns the last reported
non-OK status, defaulting to the accumulator. -/
theorem aggregate_foldl (l : List String) :
    ∀ acc : String,
      l.foldl (fun acc s => if s ≠ "OK" then s else acc) acc =
        ((l.filter (fun s => s ≠ "OK")).getLast?).getD acc := by
  induction l with
  | nil => intro acc; simp
  | cons a l ih =>
    intro acc
    rw [List.foldl_cons]
    by_cases h : a = "OK"
    · subst h
      rw [show (if ("OK" : String) ≠ "OK" then "OK" else acc) = acc from by simp]
      rw [ih acc]
      have hfil0 : List.filter (fun s => decide (s ≠ "OK")) ("OK" :: l) =
          List.filter (fun s => decide (s ≠ "OK")) l := by
        simp [List.filter_cons]
      rw [hfil0]
    · rw [if_pos (by simpa using h), ih a]
      have hfil : (a :: l).filter (fun s => s ≠ "OK") =
          a :: l.filter (fun s => s ≠ "OK") := by
        simp [List.filter_cons, h]
      rw [hfil, getLastD_of_cons]

/-- C4 counterexample: for the node list `[FAILED, DEGRADED]` the first
non-OK status is FAILED, but the code reports DEGRADED - the last non-OK
node wins, not the first. -/
theorem c4_counterexample :
    aggregateNodeStatus ["FAILED", "DEGRADED"] = "DEGRADED" ∧
    ["FAILED", "DEGRADED"].find? (fun s => s ≠ "OK") = some "FAILED" ∧
    ("DEGRADED" : String) ≠ "FAILED" := by
  refine ⟨rfl, rfl, by decide⟩

/-- C4 amended: the aggregate is OK exactly when every node reports OK;
otherwise it is the status string of the last non-OK node in iteration
order (a later non-OK status overwrites an earlier one). -/
theorem c4_amended (l : List String) :
    aggregateNodeStatus l =
      ((l.filter (fun s => s ≠ "OK")).getLast?).getD "OK" ∧
    (aggregateNodeStatus l = "OK" ↔ ∀ s ∈ l, s = "OK") := by
  have hmain := aggregate_foldl l "OK"
  refine ⟨hmain, ?_⟩
  unfold aggregateNodeStatus
  rw [hmain]
  constructor
  · intro hok s hs
    by_contra hne
    have hmem : s ∈ l.filter (fun s => s ≠ "OK") :=
      List.mem_filter.mpr ⟨hs, by simpa using hne⟩
    have hne_nil : l.filter (fun s => s ≠ "OK") ≠ [] :=
      List.ne_nil_of_mem hmem
    obtain ⟨y, hy⟩ := Option.isSome_iff_exists.mp
      (List.getLast?_isSome.mpr hne_nil)
    have hymem : y ∈ l.filter (fun s => s ≠ "OK") := by
      obtain ⟨hne, heq⟩ := List.mem_getLast?_eq_getLast (Option.mem_def.mpr hy)
      rw [heq]
      exact List.getLast_mem hne
    have hyne : y ≠ "OK" := by
      have := (List.mem_filter.mp hymem).2
      simpa using this
    rw [hy] at hok
    exact hyne hok
  · intro hall
    have : l.filter (fun s => s ≠ "OK") = [] := by
      rw [List.filter_eq_nil_iff]
      intro s hs
      simp [hall s hs]
    rw [this]
    rfl

/-! ## The query cascade -/

/-- Master case analysis of the query cascade: either some query fails and
the cycle aborts with the four series untouched (only scalars assigned so
far were mutated), or all nine queries succeed and the result is exactly
an `appendSamples` step on a record whose series equal the starting ones. -/
theorem runQueries_spec (d : RubrikData) (env : CycleEnv) :
    (∃ e, runQueries d env = .error e ∧ env.allOk = false ∧
      e.iops = d.iops ∧ e.throughput = d.throughput ∧
      e.ingest = d.ingest ∧ e.streams = d.streams) ∨
    (∃ d1 str ir iw tr tw ing,
      env.q7 = .ok str ∧ env.q8 = .ok (ir, iw, tr, tw) ∧ env.q9 = .ok ing ∧
      env.allOk = true ∧
      runQueries d env = .ok (appendSamples d1 (ir + iw)
        (bytesToMB tr + bytesToMB tw) (bytesToMB ing) str) ∧
      d1.iops = d.iops ∧ d1.throughput = d.throughput ∧
      d1.ingest = d.ingest ∧ d1.streams = d.streams) := by
  unfold runQueries
  rcases h1 : env.q1 with _ | _ | ⟨s, f, r⟩
  · exact Or.inl ⟨d, rfl,
      by simp [CycleEnv.allOk, QueryOutcome.isOk, h1], rfl, rfl, rfl, rfl⟩
  · exact Or.inl ⟨d, rfl,
      by simp [CycleEnv.allOk, QueryOutcome.isOk, h1], rfl, rfl, rfl, rfl⟩
  rcases h2 : env.q2 with _ | _ | ⟨tot, avail⟩
  · exact Or.inl ⟨_, rfl,
      by simp [CycleEnv.allOk, QueryOutcome.isOk, h2], rfl, rfl, rfl, rfl⟩
  · exact Or.inl ⟨_, rfl,
      by simp [CycleEnv.allOk, QueryOutcome.isOk, h2], rfl, rfl, rfl, rfl⟩
  rcases h3 : env.q3 with _ | _ | ⟨v⟩
  · exact Or.inl ⟨_, rfl,
      by simp [CycleEnv.allOk, QueryOutcome.isOk, h3], rfl, rfl, rfl, rfl⟩
  · exact Or.inl ⟨_, rfl,
      by simp [CycleEnv.allOk, QueryOutcome.isOk, h3], rfl, rfl, rfl, rfl⟩
  rcases h4 : env.q4 with _ | _ | ⟨b⟩
  · exact Or.inl ⟨_, rfl,
      by simp [CycleEnv.allOk, QueryOutcome.isOk, h4], rfl, rfl, rfl, rfl⟩
  · exact Or.inl ⟨_, rfl,
      by simp [CycleEnv.allOk, QueryOutcome.isOk, h4], rfl, rfl, rfl, rfl⟩
  rcases h5 : env.q5 with _ | _ | ⟨y, t⟩
  · exact Or.inl ⟨_, rfl,
      by simp [CycleEnv.allOk, QueryOutcome.isOk, h5], rfl, rfl, rfl, rfl⟩
  · exact Or.inl ⟨_, rfl,
      by simp [CycleEnv.allOk, QueryOutcome.isOk, h5], rfl, rfl, rfl, rfl⟩
  rcases h6 : env.q6 with _ | _ | ⟨ns⟩
  · exact Or.inl ⟨_, rfl,
      by simp [CycleEnv.allOk, QueryOutcome.isOk, h6], rfl, rfl, rfl, rfl⟩
  · exact Or.inl ⟨_, rfl,
      by simp [CycleEnv.allOk, QueryOutcome.isOk, h6], rfl, rfl, rfl, rfl⟩
  rcases h7 : env.q7 with _ | _ | ⟨streams⟩
  · exact Or.inl ⟨_, rfl,
      by simp [CycleEnv.allOk, QueryOutcome.isOk, h7], rfl, rfl, rfl, rfl⟩
  · exact Or.inl ⟨_, rfl,
      by simp [CycleEnv.allOk, QueryOutcome.isOk, h7], rfl, rfl, rfl, rfl⟩
  rcases h8 : env.q8 with _ | _ | ⟨ir, iw, tr, tw⟩
  · exact Or.inl ⟨_, rfl,
      by simp [CycleEnv.allOk, QueryOutcome.isOk, h8], rfl, rfl, rfl, rfl⟩
  · exact Or.inl ⟨_, rfl,
      by simp [CycleEnv.allOk, QueryOutcome.isOk, h8], rfl, rfl, rfl, rfl⟩
  rcases h9 : env.q9 with _ | _ | ⟨ing⟩
  · exact Or.inl ⟨_, rfl,
      by simp [CycleEnv.allOk, QueryOutcome.isOk, h9], rfl, rfl, rfl, rfl⟩
  · exact Or.inl ⟨_, rfl,
      by simp [CycleEnv.allOk, QueryOutcome.isOk, h9], rfl, rfl, rfl, rfl⟩
  refine Or.inr ⟨_, _, _, _, _, _, _, rfl, rfl, rfl, ?_, rfl, rfl, rfl, rfl, rfl⟩
  simp [CycleEnv.allOk, QueryOutcome.isOk, h1, h2, h3, h4, h5, h6, h7, h8, h9]

theorem tail_concat_getLast {α : Type} (l : List α) (x : α) (hl : l ≠ []) :
    ((l ++ [x]).tail).getLast? = some x := by
  cases l with
  | nil => contradiction
  | cons a l => simp [List.getLast?_concat]

/-- `appendSamples` keeps the four series at a common length within the
cap whenever they start at a common length within the cap. -/
theorem appendSamples_lengths (d : RubrikData) (io tp ing str : ℕ)
    (h1 : d.iops.length = d.throughput.length)
    (h2 : d.iops.length = d.ingest.length)
    (h3 : d.iops.length = d.streams.length)
    (hle : d.iops.length ≤ MAX_DATAPOINTS) :
    ((appendSamples d io tp ing str).iops.length =
        (appendSamples d io tp ing str).throughput.length ∧
      (appendSamples d io tp ing str).iops.length =
        (appendSamples d io tp ing str).ingest.length ∧
      (appendSamples d io tp ing str).iops.length =
        (appendSamples d io tp ing str).streams.length) ∧
    (appendSamples d io tp ing str).iops.length ≤ MAX_DATAPOINTS := by
  rw [MAX_DATAPOINTS] at *
  simp only [appendSamples, MAX_DATAPOINTS]
  split
  · simp only [List.length_tail, List.length_append, List.length_singleton]
    omega
  · rename_i hle2
    simp only [List.length_append, List.length_singleton] at hle2 ⊢
    omega

/-- The sample appended by `appendSamples` is the last element of each
series afterwards, provided the series start at a common length. -/
theorem appendSamples_getLast (d : RubrikData) (io tp ing str : ℕ)
    (h1 : d.iops.length = d.throughput.length)
    (h2 : d.iops.length = d.ingest.length)
    (h3 : d.iops.length = d.streams.length) :
    (appendSamples d io tp ing str).iops.getLast? = some io ∧
    (appendSamples d io tp ing str).throughput.getLast? = some tp ∧
    (appendSamples d io tp ing str).ingest.getLast? = some ing ∧
    (appendSamples d io tp ing str).streams.getLast? = some str := by
  simp only [appendSamples, MAX_DATAPOINTS]
  split
  · rename_i hgt
    simp only [List.length_append, List.length_singleton] at hgt
    refine ⟨tail_concat_getLast _ _ ?_, tail_concat_getLast _ _ ?_,
      tail_concat_getLast _ _ ?_, tail_concat_getLast _ _ ?_⟩ <;>
      · apply List.ne_nil_of_length_pos
        omega
  · exact ⟨List.getLast?_concat _, List.getLast?_concat _,
      List.getLast?_concat _, List.getLast?_concat _⟩

/-- Path analysis of one cycle's effect on the `data` record: the record
is untouched (failed login, or missing session), or it is exactly what the
query cascade left behind, aborted or complete. -/
theorem generate_json_ok_data (st : MonitorJSON) (login : LoginOutcome)
    (env : CycleEnv) (st' : MonitorJSON)
    (h : generate_json st login env = .ok st') :
    st'.data = st.data ∨
    (∃ e, runQueries st.data env = .error e ∧ st'.data = e) ∨
    (∃ d1, runQueries st.data env = .ok d1 ∧ st'.data = d1) := by
  unfold generate_json at h
  rcases htok : st.token with _ | t
  all_goals rw [htok] at h
  · rcases login with _ | t' | m | _ | _ <;>
      simp only [get_rubrik_token] at h
    · injection h with h2
      subst h2
      exact Or.inl rfl
    · unfold runTry at h
      dsimp only at h
      rcases hrq : runQueries st.data env with e | d1 <;> rw [hrq] at h <;>
        injection h with h2 <;> subst h2
      · exact Or.inr (Or.inl ⟨e, rfl, rfl⟩)
      · exact Or.inr (Or.inr ⟨d1, rfl, rfl⟩)
    · injection h with h2
      subst h2
      exact Or.inl rfl
    · exact absurd h (by simp)
    · exact absurd h (by simp)
  · unfold runTry at h
    rcases hses : st.session with _ | u
    all_goals rw [hses] at h
    · injection h with h2
      subst h2
      exact Or.inl rfl
    · rcases hrq : runQueries st.data env with e | d1 <;> rw [hrq] at h <;>
        injection h with h2 <;> subst h2
      · exact Or.inr (Or.inl ⟨e, rfl, rfl⟩)
      · exact Or.inr (Or.inr ⟨d1, rfl, rfl⟩)

/-! ## Claim C7 - series untouched by failed cycles -/

/-- C7: if any query of the cycle fails, the four streaming series are
exactly what they were before the cycle, whichever way the cycle entered
the query sequence (and also when the cycle never reached it). -/
theorem c7_sequences_frame (st : MonitorJSON) (login : LoginOutcome)
    (env : CycleEnv) (h : env.allOk = false) :
    (resultState (generate_json st login env)).data.iops = st.data.iops ∧
    (resultState (generate_json st login env)).data.throughput = st.data.throughput ∧
    (resultState (generate_json st login env)).data.ingest = st.data.ingest ∧
    (resultState (generate_json st login env)).data.streams = st.data.streams := by
  unfold generate_json
  rcases htok : st.token with _ | t
  · rcases login with _ | t' | m | _ | _ <;> simp only [get_rubrik_token]
    · exact ⟨rfl, rfl, rfl, rfl⟩
    · unfold runTry
      dsimp only
      rcases runQueries_spec st.data env with ⟨e, hrq, _, f1, f2, f3, f4⟩ |
        ⟨d1, str, ir, iw, tr, tw, ing, _, _, _, hall, _, _⟩
      · rw [hrq]
        exact ⟨f1, f2, f3, f4⟩
      · rw [hall] at h
        exact absurd h (by simp)
    · exact ⟨rfl, rfl, rfl, rfl⟩
    · exact ⟨rfl, rfl, rfl, rfl⟩
    · exact ⟨rfl, rfl, rfl, rfl⟩
  · unfold runTry
    rcases hses : st.session with _ | u
    · exact ⟨rfl, rfl, rfl, rfl⟩
    · rcases runQueries_spec st.data env with ⟨e, hrq, _, f1, f2, f3, f4⟩ |
        ⟨d1, str, ir, iw, tr, tw, ing, _, _, _, hall, _, _⟩
      · rw [hrq]
        exact ⟨f1, f2, f3, f4⟩
      · rw [hall] at h
        exact absurd h (by simp)

/-- Witness for C7: the cycle failing at its second query leaves the four
(empty) series of `stTok` unchanged. -/
theorem c7_witness :
    (resultState (generate_json stTok LoginOutcome.transportError envFailQ2)).data.iops =
      stTok.data.iops ∧
    (resultState (generate_json stTok LoginOutcome.transportError envFailQ2)).data.throughput =
      stTok.data.throughput ∧
    (resultState (generate_json stTok LoginOutcome.transportError envFailQ2)).data.ingest =
      stTok.data.ingest ∧
    (resultState (generate_json stTok LoginOutcome.transportError envFailQ2)).data.streams =
      stTok.data.streams :=
  c7_sequences_frame stTok LoginOutcome.transportError envFailQ2 rfl

/-! ## Claim C9 - the four series stay in lockstep within the cap -/

/-- C9: in every state reachable by completed polling cycles, the four
streaming series have a common length, and that length is at most
`MAX_DATAPOINTS` (the trim step, which tests only the `iops` length,
preserves this). -/
theorem c9_invariant (st : MonitorJSON) (h : Reachable st) :
    (st.data.iops.length = st.data.throughput.length ∧
     st.data.iops.length = st.data.ingest.length ∧
     st.data.iops.length = st.data.streams.length) ∧
    st.data.iops.length ≤ MAX_DATAPOINTS := by
  induction h with
  | init => simp [initMonitor, RubrikData.init, MAX_DATAPOINTS]
  | step st login env st' hreach hok ih =>
    obtain ⟨⟨i1, i2, i3⟩, i4⟩ := ih
    rcases generate_json_ok_data st login env st' hok with hsame |
      ⟨e, hrq, hdata⟩ | ⟨d1, hrq, hdata⟩
    · rw [hsame]
      exact ⟨⟨i1, i2, i3⟩, i4⟩
    · rcases runQueries_spec st.data env with ⟨e', hrq', _, f1, f2, f3, f4⟩ |
        ⟨_, _, _, _, _, _, _, _, _, _, _, hrq', _⟩
      · rw [hrq'] at hrq
        injection hrq with he
        subst he
        rw [hdata, f1, f2, f3, f4]
        exact ⟨⟨i1, i2, i3⟩, i4⟩
      · rw [hrq'] at hrq
        exact Except.noConfusion hrq
    · rcases runQueries_spec st.data env with ⟨e', hrq', _, _⟩ |
        ⟨d2, str, ir, iw, tr, tw, ing, _, _, _, _, hrq', g1, g2, g3, g4⟩
      · rw [hrq'] at hrq
        exact Except.noConfusion hrq
      · rw [hrq'] at hrq
        injection hrq with he
        subst he
        rw [hdata]
        exact appendSamples_lengths d2 _ _ _ _
          (by rw [g1, g2]; exact i1) (by rw [g1, g3]; exact i2)
          (by rw [g1, g4]; exact i3) (by rw [g1]; exact i4)

/-- Witness for C9: the invariant at the initial state. -/
theorem c9_invariant_witness :
    (initMonitor.data.iops.length = initMonitor.data.throughput.length ∧
     initMonitor.data.iops.length = initMonitor.data.ingest.length ∧
     initMonitor.data.iops.length = initMonitor.data.streams.length) ∧
    initMonitor.data.iops.length ≤ MAX_DATAPOINTS :=
  c9_invariant initMonitor Reachable.init

/-! ## Claim C1 - scalars and failed cycles -/

/-- C2 counterexample: after a login transport error the monitor holds a
fresh session object with no token - session and token were not cleared
together. -/
theorem c2_counterexample :
    (resultState (generate_json initMonitor LoginOutcome.transportError envAllOk)).session =
      some () ∧
    (resultState (generate_json initMonitor LoginOutcome.transportError envAllOk)).token =
      none :=
  ⟨rfl, rfl⟩

/-- C2 amended: the token is never held without the session: a cycle
started in a state where a present token implies a present session ends
in such a state (the converse direction fails, see the counterexample). -/
theorem c2_amended (st : MonitorJSON) (login : LoginOutcome) (env : CycleEnv)
    (st' : MonitorJSON)
    (hinv : st.token.isSome → st.session.isSome)
    (h : generate_json st login env = .ok st') :
    st'.token.isSome → st'.session.isSome := by
  unfold generate_json at h
  rcases htok : st.token with _ | t
  all_goals rw [htok] at h
  · rcases login with _ | t' | m | _ | _ <;> simp only [get_rubrik_token] at h
    · injection h with h2
      subst h2
      intro hx
      simp at hx
    · unfold runTry at h
      dsimp only at h
      rcases hrq : runQueries st.data env with e | d1 <;> rw [hrq] at h <;>
        injection h with h2 <;> subst h2
      · intro hx
        simp at hx
      · intro _
        simp
    · injection h with h2
      subst h2
      intro hx
      simp at hx
    · exact absurd h (by simp)
    · exact absurd h (by simp)
  · have hses : st.session = some () := by
      have hs := hinv (by simp [htok])
      obtain ⟨u, hu⟩ := Option.isSome_iff_exists.mp hs
      cases u
      exact hu
    unfold runTry at h
    rw [hses] at h
    rcases hrq : runQueries st.data env with e | d1 <;> rw [hrq] at h <;>
      injection h with h2 <;> subst h2
    · intro hx
      simp at hx
    · intro _
      simp

/-- Witness for C2's amended theorem: after a full successful cycle from
`stTok` the token is present, so by the amended theorem the session is. -/
theorem c2_amended_witness :
    (resultState (generate_json stTok LoginOutcome.transportError envAllOk)).session.isSome :=
  c2_amended stTok LoginOutcome.transportError envAllOk
    (resultState (generate_json stTok LoginOutcome.transportError envAllOk))
    (fun _ => rfl) rfl rfl

/-! ## Claim C10 - the appended samples -/

/-- C10 counterexample: with a read byte rate of 2^73 - 1 and write rate 0
the appended throughput sample is 2^53 (the float quotient rounds up
before truncation), not the sum of the floor divisions, which is
2^53 - 1. -/
theorem c10_counterexample :
    (resultState (generate_json stTok LoginOutcome.transportError envBigRate)).data.throughput =
      [9007199254740992] ∧
    (2 ^ 73 - 1) / (1024 * 1024) + 0 / (1024 * 1024) = 9007199254740991 := by
  constructor
  · rfl
  · norm_num

/-- C10 amended: on a successful cycle the appended iops sample is the raw
sum of read and write IOPS, while the throughput sample converts the read
and write byte rates separately before summing - equal to the sum of the
floor divisions whenever both rates are below 2^53 - and the separate
conversion can differ by 1 from converting the summed rates. -/
theorem c10_amended (st : MonitorJSON) (t : String) (login : LoginOutcome)
    (env : CycleEnv) (st' : MonitorJSON) (str ir iw tr tw ing : ℕ)
    (htok : st.token = some t) (hses : st.session = some ())
    (h7 : env.q7 = .ok str) (h8 : env.q8 = .ok (ir, iw, tr, tw))
    (h9 : env.q9 = .ok ing) (hall : env.allOk = true)
    (hlen1 : st.data.iops.length = st.data.throughput.length)
    (hlen2 : st.data.iops.length = st.data.ingest.length)
    (hlen3 : st.data.iops.length = st.data.streams.length)
    (h : generate_json st login env = .ok st') :
    st'.data.iops.getLast? = some (ir + iw) ∧
    st'.data.throughput.getLast? = some (bytesToMB tr + bytesToMB tw) ∧
    (tr < 2 ^ 53 → tw < 2 ^ 53 →
      st'.data.throughput.getLast? =
        some (tr / (1024 * 1024) + tw / (1024 * 1024))) ∧
    bytesToMB 524288 + bytesToMB 524288 + 1 = bytesToMB (524288 + 524288) := by
  unfold generate_json at h
  rw [htok] at h
  unfold runTry at h
  rw [hses] at h
  rcases runQueries_spec st.data env with ⟨e, hrq, hfalse, _⟩ |
    ⟨d1, str', ir', iw', tr', tw', ing', h7', h8', h9', _, hrq, g1, g2, g3, g4⟩
  · rw [hfalse] at hall
    exact absurd hall (by simp)
  · rw [h7] at h7'
    injection h7' with e7
    subst e7
    rw [h8] at h8'
    injection h8' with e8
    simp only [Prod.mk.injEq] at e8
    obtain ⟨rfl, rfl, rfl, rfl⟩ := e8
    rw [h9] at h9'
    injection h9' with e9
    subst e9
    rw [hrq] at h
    injection h with h2
    subst h2
    obtain ⟨ga, gb, gc, gd⟩ := appendSamples_getLast d1 (ir + iw)
      (bytesToMB tr + bytesToMB tw) (bytesToMB ing) str
      (by rw [g1, g2]; exact hlen1) (by rw [g1, g3]; exact hlen2)
      (by rw [g1, g4]; exact hlen3)
    refine ⟨ga, gb, ?_, by decide⟩
    intro htr htw
    have hgoal : (bytesToMB tr + bytesToMB tw) =
        tr / (1024 * 1024) + tw / (1024 * 1024) := by
      simp only [bytesToMB]
      rw [pyTrunc_pow2 tr htr, pyTrunc_pow2 tw htw]
    rw [← hgoal]
    exact gb

/-- Witness for C10's amended theorem on the concrete successful cycle. -/
theorem c10_amended_witness :
    (resultState (generate_json stTok LoginOutcome.transportError envAllOk)).data.iops.getLast? =
      some (10 + 20) ∧
    (resultState (generate_json stTok LoginOutcome.transportError envAllOk)).data.throughput.getLast? =
      some (bytesToMB 2097152 + bytesToMB 1048576) ∧
    (2097152 < 2 ^ 53 → 1048576 < 2 ^ 53 →
      (resultState (generate_json stTok LoginOutcome.transportError envAllOk)).data.throughput.getLast? =
        some (2097152 / (1024 * 1024) + 1048576 / (1024 * 1024))) ∧
    bytesToMB 524288 + bytesToMB 524288 + 1 = bytesToMB (524288 + 524288) :=
  c10_amended stTok "tok" LoginOutcome.transportError envAllOk
    (resultState (generate_json stTok LoginOutcome.transportError envAllOk))
    4 10 20 2097152 1048576 2097152 rfl rfl rfl rfl rfl rfl rfl rfl rfl rfl
